import Mathlib

/-!
Verification development for the Mattermost AI plugin LLM Bridge client
(public/bridgeclient: client.go, transport.go, and the discovery calls).

Strings from the Go source are modelled as lists of characters so that the
byte-level operations of the source (strings.HasPrefix, strings.TrimPrefix,
strings.Index) become transparent list operations; all request paths are
ASCII, where Go's byte indices and character indices coincide.

The HTTP layer is embedded by making the response (status code, body bytes,
and a possible read fault) an explicit input of each request function: the
claims all quantify over responses, so request construction (json.Marshal of
the request, http.NewRequest) is not modelled.  The JSON machinery
(encoding/json and the llm package's TextStreamEvent), which lives outside
this repository's sources, is modelled from the spec's wire contract.
-/

namespace Bridgeclient

/-- Plugin identifier constant (client.go line 13). -/
def aiPluginID : String := "mattermost-ai"

/-- Server identifier constant (client.go line 14). -/
def mattermostServerID : String := "mattermost-server"

/-- Modelled from the spec: the value carried by a stream event.  In the Go
llm package the Value field is an untyped interface; the spec gives it three
shapes: absent (for end frames), a text fragment, and an error cause (the
synthetic events of client.go wrap a fmt.Errorf value). -/
inductive StreamValue where
  | null : StreamValue
  | str : String → StreamValue
  | errMsg : String → StreamValue
deriving DecidableEq

/-- Modelled from the spec: llm.TextStreamEvent, a tagged event with a type
discriminator field (named type in the wire format; Type in Go) and a value. -/
structure TextStreamEvent where
  type_ : String
  value : StreamValue
deriving DecidableEq

/-- Modelled from the spec: the llm package's event type tag for text fragments. -/
def EventTypeText : String := "text"

/-- Modelled from the spec: the llm package's event type tag for stream end. -/
def EventTypeEnd : String := "end"

/-- Modelled from the spec: the llm package's event type tag for errors. -/
def EventTypeError : String := "error"

/-- Reads characters up to the first double quote; returns the consumed
characters and the remainder after the quote, or none when no quote occurs.
Escape sequences are not given a denotation (see unmarshalStreamEvent). -/
def takeUntilQuote : List Char → Option (List Char × List Char)
  | [] => none
  | c :: rest =>
    if c = '"' then some ([], rest)
    else
      match takeUntilQuote rest with
      | none => none
      | some (v, r) => some (c :: v, r)

/-- Drops the literal p from the front of s, failing when p is not a prefix. -/
def dropLit (p s : List Char) : Option (List Char) :=
  if p.isPrefixOf s then some (s.drop p.length) else none

/-- Opening of a serialized StreamEvent object, up to the type tag. -/
def tyPre : List Char := ("\x7b\"type\":\"").toList

/-- Separator between the type tag and the value field of a StreamEvent. -/
def valPre : List Char := (",\"value\":\"").toList

/-- Modelled from the spec: JSON decoding of a StreamEvent (json.Unmarshal
into llm.TextStreamEvent; both live outside this repository's sources).  Per
the spec's wire contract a frame is a discriminated object with a type field
and a type-dependent value field.  Payloads of the form
with a type tag alone decode to an event with a null value, payloads with a
string value decode to an event carrying it, and everything else (including
any payload using JSON escape sequences) is a parse failure. -/
def unmarshalStreamEvent (s : List Char) : Option TextStreamEvent :=
  match dropLit tyPre s with
  | none => none
  | some s₁ =>
    match takeUntilQuote s₁ with
    | none => none
    | some (ty, s₂) =>
      if s₂ = ['}'] then some ⟨String.mk ty, StreamValue.null⟩
      else
        match dropLit valPre s₂ with
        | none => none
        | some s₃ =>
          match takeUntilQuote s₃ with
          | none => none
          | some (v, s₄) =>
            if s₄ = ['}'] then some ⟨String.mk ty, StreamValue.str (String.mk v)⟩
            else none

/-- Synthetic event published when a frame fails to parse (client.go lines
271 to 274); the Go value wraps the json error after this constant text. -/
def parseErrorEvent : TextStreamEvent :=
  ⟨EventTypeError, StreamValue.errMsg ("error parsing stream event")⟩

/-- Synthetic event published when the scanner reports a read fault
(client.go lines 287 to 292). -/
def readErrorEvent (e : String) : TextStreamEvent :=
  ⟨EventTypeError, StreamValue.errMsg ("error reading stream: " ++ e)⟩

/-- Marker of meaningful SSE lines (client.go line 255). -/
def dataMarker : List Char := ("data: ").toList

/-- Embeds the reader goroutine of doStreamingRequest (client.go lines 246
to 293) as the sequence of events it sends on the stream channel, in send
order.  Input: the lines delivered by the bufio scanner, and the read fault
the scanner reports once the lines are exhausted (scanner.Err; none models a
clean end of input).  Lines without the data marker are skipped, as are
marker lines with an empty payload (strings.TrimPrefix of the marker is the
drop of its length); a payload that fails to decode yields the synthetic
parse error event and ends the loop; a decoded end or error event is sent
and ends the loop; when the loop exhausts the input, a read fault is turned
into a synthetic read error event and a clean end produces nothing further. -/
def decodeStream : List (List Char) → Option String → List TextStreamEvent
  | [], none => []
  | [], some e => [readErrorEvent e]
  | line :: rest, fault =>
    if dataMarker.isPrefixOf line then
      if line.drop dataMarker.length = [] then decodeStream rest fault
      else
        match unmarshalStreamEvent (line.drop dataMarker.length) with
        | none => [parseErrorEvent]
        | some ev =>
          if ev.type_ = EventTypeEnd ∨ ev.type_ = EventTypeError then [ev]
          else ev :: decodeStream rest fault
    else decodeStream rest fault

/-- Holds of a line the decoder loop skips without publishing: a line
without the data marker, or a marker line whose remaining payload is empty
(client.go lines 255 to 265). -/
def skippedLine (line : List Char) : Bool :=
  !(dataMarker.isPrefixOf line) || (line.drop dataMarker.length == [])

/-- Holds when the decoder loop consumes every input line without an early
return: no malformed frame and no end or error event among the lines, so
the loop exits by exhausting the scanner and then consults scanner.Err. -/
def consumesAll : List (List Char) → Bool
  | [] => true
  | line :: rest =>
    if dataMarker.isPrefixOf line then
      if line.drop dataMarker.length = [] then consumesAll rest
      else
        match unmarshalStreamEvent (line.drop dataMarker.length) with
        | none => false
        | some ev =>
          if ev.type_ = EventTypeEnd ∨ ev.type_ = EventTypeError then false
          else consumesAll rest
    else consumesAll rest

/-- Drops one trailing carriage return, as bufio's dropCR does. -/
def dropCR (l : List Char) : List Char :=
  match l.getLast? with
  | some c => if c = '\r' then l.dropLast else l
  | none => l

/-- Accumulator worker for scanLines; acc holds the current line reversed. -/
def scanLinesAux : List Char → List Char → List (List Char)
  | [], acc => if acc = [] then [] else [dropCR acc.reverse]
  | c :: rest, acc =>
    if c = '\n' then dropCR acc.reverse :: scanLinesAux rest []
    else scanLinesAux rest (c :: acc)

/-- Embeds bufio.Scanner with the default ScanLines split (client.go line
250): newline-terminated lines with one trailing carriage return stripped;
at end of input a final unterminated line is delivered when non-empty. -/
def scanLines (s : List Char) : List (List Char) :=
  scanLinesAux s []

/-- Opening of a serialized ErrorResponse object. -/
def errPre : List Char := ("\x7b\"error\":\"").toList

/-- Opening of a serialized CompletionResponse object. -/
def compPre : List Char := ("\x7b\"completion\":\"").toList

/-- Modelled from the spec: JSON decoding of an ErrorResponse (client.go
lines 57 to 60; the wire contract is a body that is either an object
carrying an error string or an opaque body).  Bodies of the error-object
shape decode to their message; all other bodies are parse failures. -/
def unmarshalErrorResponse (body : List Char) : Option String :=
  match dropLit errPre body with
  | none => none
  | some s =>
    match takeUntilQuote s with
    | none => none
    | some (msg, rest) => if rest = ['}'] then some (String.mk msg) else none

/-- Modelled from the spec: JSON decoding of a CompletionResponse (client.go
lines 52 to 55; success bodies carry a completion string). -/
def unmarshalCompletionResponse (body : List Char) : Option String :=
  match dropLit compPre body with
  | none => none
  | some s =>
    match takeUntilQuote s with
    | none => none
    | some (c, rest) => if rest = ['}'] then some (String.mk c) else none

/-- Embeds the response handling of doCompletionRequest (client.go lines
150 to 195) given the response's status code and body bytes.  A status other
than 200 yields an error carrying the decoded server message when the body
decodes as an ErrorResponse, else the raw status and body; on 200 the body
is decoded as a CompletionResponse. -/
def doCompletionRequest (status : Nat) (body : List Char) : Except String String :=
  if status ≠ 200 then
    match unmarshalErrorResponse body with
    | none => Except.error ("request failed with status " ++ toString status ++ ": " ++ String.mk body)
    | some e => Except.error ("request failed with status " ++ toString status ++ ": " ++ e)
  else
    match unmarshalCompletionResponse body with
    | none => Except.error ("failed to unmarshal response")
    | some c => Except.ok c

/-- Embeds AgentCompletion (client.go lines 119 to 124): the request path it
builds paired with the response handling shared via doCompletionRequest. -/
def AgentCompletion (agent : String) (status : Nat) (body : List Char) :
    String × Except String String :=
  ("/" ++ aiPluginID ++ "/bridge/v1/completion/agent/" ++ agent ++ "/nostream",
   doCompletionRequest status body)

/-- Embeds ServiceCompletion (client.go lines 126 to 131). -/
def ServiceCompletion (service : String) (status : Nat) (body : List Char) :
    String × Except String String :=
  ("/" ++ aiPluginID ++ "/bridge/v1/completion/service/" ++ service ++ "/nostream",
   doCompletionRequest status body)

/-- Embeds the response handling of doStreamingRequest (client.go lines 197
to 301).  A status other than 200 is rejected before any streaming begins: a
fault while reading the error body yields the bare status message (lines 231
to 234), else the body is decoded as an ErrorResponse as in the sync path.
On 200 the result is the full event sequence the reader goroutine sends, as
observed by a consumer that keeps reading until the channel closes. -/
def doStreamingRequest (status : Nat) (body : List Char) (fault : Option String) :
    Except String (List TextStreamEvent) :=
  if status ≠ 200 then
    match fault with
    | some _ => Except.error ("request failed with status " ++ toString status)
    | none =>
      match unmarshalErrorResponse body with
      | none => Except.error ("request failed with status " ++ toString status ++ ": " ++ String.mk body)
      | some e => Except.error ("request failed with status " ++ toString status ++ ": " ++ e)
  else Except.ok (decodeStream (scanLines body) fault)

/-- Embeds AgentCompletionStream (client.go lines 133 to 139): the request
path it builds paired with the streaming response handling. -/
def AgentCompletionStream (agent : String) (status : Nat) (body : List Char)
    (fault : Option String) : String × Except String (List TextStreamEvent) :=
  ("/" ++ aiPluginID ++ "/bridge/v1/completion/agent/" ++ agent,
   doStreamingRequest status body fault)

/-- Embeds ServiceCompletionStream (client.go lines 141 to 147). -/
def ServiceCompletionStream (service : String) (status : Nat) (body : List Char)
    (fault : Option String) : String × Except String (List TextStreamEvent) :=
  ("/" ++ aiPluginID ++ "/bridge/v1/completion/service/" ++ service,
   doStreamingRequest status body fault)

/-- Embeds the resource lifecycle of the reader goroutine (client.go lines
242 to 296) under a consumer that performs exactly the given number of
receives on the stream channel and then abandons the handle.  The channel is
created unbuffered (make with no capacity, line 243), so each send completes
only when matched by a receive, and there is no cancellation signal; the
goroutine therefore returns, running its deferred resp.Body.Close (line
247), exactly when every event it sends is received.  The result is whether
the response body ever gets closed in that scenario. -/
def readerBodyClosed (lines : List (List Char)) (fault : Option String)
    (receives : Nat) : Bool :=
  decide ((decodeStream lines fault).length ≤ receives)

/-- Agent discovery record (client.go lines 62 to 69). -/
structure BridgeAgentInfo where
  id : String
  displayName : String
  username : String
  serviceID : String
  serviceType : String
deriving DecidableEq

/-- Service discovery record (client.go lines 71 to 76). -/
structure BridgeServiceInfo where
  id : String
  name : String
  type_ : String
deriving DecidableEq

/-- Modelled from the spec: JSON decoding of the agents discovery response,
an object carrying a list of agent records (json.Unmarshal into
AgentsResponse; the JSON library is outside the sources).  Only the
empty-list payload, the shape the discovery claims exercise, is given a
denotation; other payloads are conservatively treated as parse failures. -/
def unmarshalAgentsResponse (body : List Char) : Option (List BridgeAgentInfo) :=
  if body = ("\x7b\"agents\":[]\x7d").toList then some [] else none

/-- Modelled from the spec: JSON decoding of the services discovery
response, with the same conservative coverage as the agents decoder. -/
def unmarshalServicesResponse (body : List Char) : Option (List BridgeServiceInfo) :=
  if body = ("\x7b\"services\":[]\x7d").toList then some [] else none

/-- Embeds the URL built by GetAgents: the base path, with the user_id query
parameter appended exactly when userID is non-empty. -/
def getAgentsURL (userID : String) : String :=
  if userID ≠ "" then "/" ++ aiPluginID ++ "/bridge/v1/agents" ++ "?user_id=" ++ userID
  else "/" ++ aiPluginID ++ "/bridge/v1/agents"

/-- Embeds the URL built by GetServices. -/
def getServicesURL (userID : String) : String :=
  if userID ≠ "" then "/" ++ aiPluginID ++ "/bridge/v1/services" ++ "?user_id=" ++ userID
  else "/" ++ aiPluginID ++ "/bridge/v1/services"

/-- Embeds GetAgents (discovery source, lines 15 to 51): the GET URL it
issues paired with the handling of the response's status and body. -/
def GetAgents (userID : String) (status : Nat) (body : List Char) :
    String × Except String (List BridgeAgentInfo) :=
  (getAgentsURL userID,
   if status ≠ 200 then
     match unmarshalErrorResponse body with
     | none => Except.error ("request failed with status " ++ toString status ++ ": " ++ String.mk body)
     | some e => Except.error ("request failed with status " ++ toString status ++ ": " ++ e)
   else
     match unmarshalAgentsResponse body with
     | none => Except.error ("failed to unmarshal response")
     | some agents => Except.ok agents)

/-- Embeds GetServices (discovery source, lines 55 to 91). -/
def GetServices (userID : String) (status : Nat) (body : List Char) :
    String × Except String (List BridgeServiceInfo) :=
  (getServicesURL userID,
   if status ≠ 200 then
     match unmarshalErrorResponse body with
     | none => Except.error ("request failed with status " ++ toString status ++ ": " ++ String.mk body)
     | some e => Except.error ("request failed with status " ++ toString status ++ ": " ++ e)
   else
     match unmarshalServicesResponse body with
     | none => Except.error ("failed to unmarshal response")
     | some services => Except.ok services)

/-- Minimal HTTP response shape for the transport layer. -/
structure HTTPResponse where
  status : Nat
  body : List Char
deriving DecidableEq

/-- Embeds pluginAPIRoundTripper.RoundTrip (transport.go lines 19 to 25).
The result of the host's PluginHTTP forwarding primitive for the request is
the explicit input: Go signals an absent response with a nil pointer,
modelled as none. -/
def pluginRoundTrip (resp : Option HTTPResponse) : Except String HTTPResponse :=
  match resp with
  | none => Except.error ("failed to make interplugin request")
  | some r => Except.ok r

/-- Embeds strings.Index of a slash (transport.go line 37): the index of the
first slash, none standing for Go's minus one. -/
def goIndexOfSlash : List Char → Option Nat
  | [] => none
  | c :: rest => if c = '/' then some 0 else (goIndexOfSlash rest).map (· + 1)

/-- Embeds removeFirstPath (transport.go lines 33 to 47) acting on the
request path: the second slash is found in the path minus its first
character, and the path is cut from that slash onward, or set to the root
when there is no second slash. -/
def removeFirstPath (path : List Char) : List Char :=
  match goIndexOfSlash (path.drop 1) with
  | none => ['/']
  | some i => path.drop (1 + i)

/-- Direct dispatch transport state: the identity captured at construction
by NewClientFromApp (transport.go lines 27 to 31, client.go lines 95 to
101). -/
structure appAPIRoundTripper where
  userID : String

/-- Embeds appAPIRoundTripper.RoundTrip (transport.go lines 49 to 60) as the
pair of arguments it hands to ServeInternalPluginRequest that the claims
speak about: the captured identity, and the rewritten request path. -/
def appAPIRoundTripper.RoundTrip (a : appAPIRoundTripper) (path : List Char) :
    String × List Char :=
  (a.userID, removeFirstPath path)

/-- Unfolding equation for the decoder loop on a cons cell. -/
theorem decodeStream_cons (line : List Char) (rest : List (List Char)) (fault : Option String) :
    decodeStream (line :: rest) fault =
      if dataMarker.isPrefixOf line then
        if line.drop dataMarker.length = [] then decodeStream rest fault
        else
          match unmarshalStreamEvent (line.drop dataMarker.length) with
          | none => [parseErrorEvent]
          | some ev =>
            if ev.type_ = EventTypeEnd ∨ ev.type_ = EventTypeError then [ev]
            else ev :: decodeStream rest fault
      else decodeStream rest fault := rfl

/-- Unfolding equation for consumesAll on a cons cell. -/
theorem consumesAll_cons (line : List Char) (rest : List (List Char)) :
    consumesAll (line :: rest) =
      if dataMarker.isPrefixOf line then
        if line.drop dataMarker.length = [] then consumesAll rest
        else
          match unmarshalStreamEvent (line.drop dataMarker.length) with
          | none => false
          | some ev =>
            if ev.type_ = EventTypeEnd ∨ ev.type_ = EventTypeError then false
            else consumesAll rest
      else consumesAll rest := rfl

/-- Skipped lines leave the decoded event sequence unchanged. -/
theorem decodeStream_skip (line : List Char) (rest : List (List Char)) (fault : Option String)
    (h : skippedLine line = true) :
    decodeStream (line :: rest) fault = decodeStream rest fault := by
  rw [decodeStream_cons]
  cases hp : dataMarker.isPrefixOf line with
  | false => simp [hp]
  | true =>
    have hd : line.drop dataMarker.length = [] := by
      simpa [skippedLine, hp] using h
    simp [hp, hd]

/-- A list is a Boolean prefix of itself followed by anything. -/
theorem isPrefixOf_append_self (p s : List Char) : p.isPrefixOf (p ++ s) = true := by
  induction p with
  | nil => simp [List.isPrefixOf]
  | cons c cs ih => simp [List.isPrefixOf, ih]

/-- C10: for every finite input (scanned lines plus final scanner verdict)
the reader loop of doStreamingRequest terminates, sending a finite event
sequence — at most one event per line plus one synthetic terminal event —
after which it closes the channel, so a consumer that keeps reading always
reaches the end of the stream. -/
theorem c10_decoder_terminates (lines : List (List Char)) (fault : Option String) :
    (decodeStream lines fault).length ≤ lines.length + 1 := by
  induction lines generalizing fault with
  | nil => cases fault <;> simp [decodeStream]
  | cons line rest ih =>
    rw [decodeStream_cons]
    cases hp : dataMarker.isPrefixOf line with
    | false =>
      simp only [hp, Bool.false_eq_true, if_false]
      have := ih fault
      simp only [List.length_cons]
      omega
    | true =>
      simp only [hp, if_true]
      by_cases hd : line.drop dataMarker.length = []
      · simp only [hd, if_true]
        have := ih fault
        simp only [List.length_cons]
        omega
      · simp only [hd, if_false]
        cases hu : unmarshalStreamEvent (line.drop dataMarker.length) with
        | none => simp
        | some ev =>
          by_cases ht : ev.type_ = EventTypeEnd ∨ ev.type_ = EventTypeError
          · simp [ht]
          · simp only [ht, if_false]
            have := ih fault
            simp only [List.length_cons]
            omega

/-- C1 (amended): when the decoder consumes every line without having
published an end or error event, a read fault reported by the scanner is
turned into a synthesized error event, appended as the final event after
exactly the events of the fault-free run; the synthesized event carries the
error type tag. -/
theorem c1_fault_synthesizes_error (lines : List (List Char)) (e : String)
    (h : consumesAll lines = true) :
    decodeStream lines (some e) = decodeStream lines none ++ [readErrorEvent e]
    ∧ (readErrorEvent e).type_ = EventTypeError := by
  refine ⟨?_, rfl⟩
  induction lines with
  | nil => rfl
  | cons line rest ih =>
    rw [consumesAll_cons] at h
    rw [decodeStream_cons, decodeStream_cons]
    cases hp : dataMarker.isPrefixOf line with
    | false =>
      rw [hp] at h
      simp only [hp, Bool.false_eq_true, if_false] at h ⊢
      exact ih h
    | true =>
      rw [hp] at h
      simp only [hp, if_true] at h ⊢
      by_cases hd : line.drop dataMarker.length = []
      · simp only [hd, if_true] at h ⊢
        exact ih h
      · simp only [hd, if_false] at h ⊢
        cases hu : unmarshalStreamEvent (line.drop dataMarker.length) with
        | none => simp [hu] at h
        | some ev =>
          rw [hu] at h
          by_cases ht : ev.type_ = EventTypeEnd ∨ ev.type_ = EventTypeError
          · simp [ht] at h
          · simp only [ht, if_false] at h ⊢
            rw [ih h, List.cons_append]

/-- C1 witness: a stream that faults right after one well-formed text frame
yields that text event followed by the synthesized error event. -/
theorem c1_fault_witness :
    decodeStream [("data: \x7b\"type\":\"text\",\"value\":\"a\"\x7d").toList]
        (some ("unexpected EOF"))
      = [⟨EventTypeText, StreamValue.str ("a")⟩, readErrorEvent ("unexpected EOF")]
    ∧ (readErrorEvent ("unexpected EOF")).type_ = EventTypeError := by
  have h := c1_fault_synthesizes_error
    [("data: \x7b\"type\":\"text\",\"value\":\"a\"\x7d").toList] ("unexpected EOF")
    (by decide)
  exact ⟨h.1.trans (by decide), h.2⟩

/-- C1 counterexample: a streaming 200 response whose body ends cleanly
after a single text frame, with no end or error frame and no read fault,
yields the text event alone — the decoder synthesizes no error event on a
clean end of input, refuting the claim that every body ending before an
end or error frame produces a final synthesized error event. -/
theorem c1_counterexample :
    (AgentCompletionStream ("bot") 200
        (("data: \x7b\"type\":\"text\",\"value\":\"a\"\x7d").toList) none).2
      = Except.ok [⟨EventTypeText, StreamValue.str ("a")⟩]
    ∧ ∀ ev ∈ [(⟨EventTypeText, StreamValue.str ("a")⟩ : TextStreamEvent)],
        ev.type_ ≠ EventTypeError := by
  exact ⟨rfl, by decide⟩

/-- C3: a streaming 200 response whose body is the three frames text a,
text b, end is observed by the stream consumer as exactly the events
Text a, Text b, End in emission order, with nothing after End, for both the
agent and the service streaming entry points. -/
theorem c3_ordered_events :
    (AgentCompletionStream ("bot") 200
        (("data: \x7b\"type\":\"text\",\"value\":\"a\"\x7d\ndata: \x7b\"type\":\"text\",\"value\":\"b\"\x7d\ndata: \x7b\"type\":\"end\"\x7d").toList)
        none).2
      = Except.ok [⟨EventTypeText, StreamValue.str ("a")⟩,
          ⟨EventTypeText, StreamValue.str ("b")⟩, ⟨EventTypeEnd, StreamValue.null⟩]
    ∧ (ServiceCompletionStream ("openai") 200
        (("data: \x7b\"type\":\"text\",\"value\":\"a\"\x7d\ndata: \x7b\"type\":\"text\",\"value\":\"b\"\x7d\ndata: \x7b\"type\":\"end\"\x7d").toList)
        none).2
      = Except.ok [⟨EventTypeText, StreamValue.str ("a")⟩,
          ⟨EventTypeText, StreamValue.str ("b")⟩, ⟨EventTypeEnd, StreamValue.null⟩] :=
  ⟨rfl, rfl⟩

/-- C2: evaluation of the reader goroutine's resource lifecycle at the
failing input.  The body carries the three frames text a, text b, end, so
the goroutine has three events to send; a consumer that receives one event
and abandons the handle — before End was delivered — leaves the second send
blocked forever on the unbuffered channel, so the deferred response body
close never runs and the connection leaks, contradicting the claim that
teardown happens regardless of consumer abandonment. -/
theorem c2_abandon_leaks_body :
    (decodeStream [("data: \x7b\"type\":\"text\",\"value\":\"a\"\x7d").toList,
        ("data: \x7b\"type\":\"text\",\"value\":\"b\"\x7d").toList,
        ("data: \x7b\"type\":\"end\"\x7d").toList] none).length = 3
    ∧ readerBodyClosed [("data: \x7b\"type\":\"text\",\"value\":\"a\"\x7d").toList,
        ("data: \x7b\"type\":\"text\",\"value\":\"b\"\x7d").toList,
        ("data: \x7b\"type\":\"end\"\x7d").toList] none 1 = false
    ∧ readerBodyClosed [("data: \x7b\"type\":\"text\",\"value\":\"a\"\x7d").toList,
        ("data: \x7b\"type\":\"text\",\"value\":\"b\"\x7d").toList,
        ("data: \x7b\"type\":\"end\"\x7d").toList] none 3 = true :=
  ⟨rfl, rfl, rfl⟩

/-- C4: any streaming body made of skipped protocol padding (lines without
the data marker, or marker lines with an empty payload) followed by a
marker line whose payload fails to parse makes the decoder publish exactly
the one synthetic parse error event — which carries the error type tag —
and stop: nothing is published for the padding, and nothing after the
malformed frame, whatever follows it and whatever the scanner verdict is. -/
theorem c4_malformed_frame_stops (pre post : List (List Char)) (payload : List Char)
    (fault : Option String)
    (hpre : ∀ l ∈ pre, skippedLine l = true)
    (hne : payload ≠ [])
    (hfail : unmarshalStreamEvent payload = none) :
    decodeStream (pre ++ (dataMarker ++ payload) :: post) fault = [parseErrorEvent]
    ∧ parseErrorEvent.type_ = EventTypeError := by
  refine ⟨?_, rfl⟩
  induction pre with
  | nil =>
    rw [List.nil_append, decodeStream_cons]
    have h1 : dataMarker.isPrefixOf (dataMarker ++ payload) = true :=
      isPrefixOf_append_self _ _
    have h2 : (dataMarker ++ payload).drop dataMarker.length = payload :=
      List.drop_left _ _
    simp [h1, h2, hfail, hne]
  | cons l ls ih =>
    rw [List.cons_append, decodeStream_skip l _ fault (hpre l (by simp))]
    exact ih (fun x hx => hpre x (by simp [hx]))

/-- C4 witness: padding (a line without the marker and an empty-payload
marker line), then a malformed frame, then a well-formed end frame that is
never reached: the decoder publishes exactly the synthetic parse error. -/
theorem c4_malformed_witness :
    decodeStream [("noise").toList, ("data: ").toList,
        ("data: \x7bnot-json").toList, ("data: \x7b\"type\":\"end\"\x7d").toList] none
      = [parseErrorEvent] := by
  have h := c4_malformed_frame_stops [("noise").toList, ("data: ").toList]
    [("data: \x7b\"type\":\"end\"\x7d").toList] (("\x7bnot-json").toList) none
    (by decide) (by decide) (by decide)
  exact h.1

/-- Unfolding of the sync completion call on a non-200 status. -/
theorem doCompletionRequest_non200 (status : Nat) (body : List Char) (h : status ≠ 200) :
    doCompletionRequest status body =
      match unmarshalErrorResponse body with
      | none => Except.error ("request failed with status " ++ toString status ++ ": " ++ String.mk body)
      | some e => Except.error ("request failed with status " ++ toString status ++ ": " ++ e) := by
  unfold doCompletionRequest
  rw [if_pos h]

/-- Unfolding of the streaming call on a non-200 status. -/
theorem doStreamingRequest_non200 (status : Nat) (body : List Char) (fault : Option String)
    (h : status ≠ 200) :
    doStreamingRequest status body fault =
      match fault with
      | some _ => Except.error ("request failed with status " ++ toString status)
      | none =>
        match unmarshalErrorResponse body with
        | none => Except.error ("request failed with status " ++ toString status ++ ": " ++ String.mk body)
        | some e => Except.error ("request failed with status " ++ toString status ++ ": " ++ e) := by
  unfold doStreamingRequest
  rw [if_pos h]

/-- C5: every response with a non-2xx status makes the sync completion
calls return an error and the streaming calls return an error instead of a
stream handle, before any stream event is produced; the error carries the
decoded server message when the body decodes as an error object, else the
raw status and body, and on a fault-free body the streaming rejection is
the same error the sync path builds. -/
theorem c5_non2xx_rejected (agent service : String) (status : Nat) (body : List Char)
    (fault : Option String) (h : status < 200 ∨ 300 ≤ status) :
    (∃ e, (AgentCompletion agent status body).2 = Except.error e)
    ∧ (∃ e, (ServiceCompletion service status body).2 = Except.error e)
    ∧ (∃ e, (AgentCompletionStream agent status body fault).2 = Except.error e)
    ∧ (∃ e, (ServiceCompletionStream service status body fault).2 = Except.error e)
    ∧ (∀ msg, unmarshalErrorResponse body = some msg →
        (AgentCompletion agent status body).2
          = Except.error ("request failed with status " ++ toString status ++ ": " ++ msg))
    ∧ (unmarshalErrorResponse body = none →
        (AgentCompletion agent status body).2
          = Except.error ("request failed with status " ++ toString status ++ ": " ++ String.mk body))
    ∧ (fault = none → ∀ msg, unmarshalErrorResponse body = some msg →
        (AgentCompletionStream agent status body fault).2
          = Except.error ("request failed with status " ++ toString status ++ ": " ++ msg))
    ∧ (fault = none → unmarshalErrorResponse body = none →
        (AgentCompletionStream agent status body fault).2
          = Except.error ("request failed with status " ++ toString status ++ ": " ++ String.mk body)) := by
  have h200 : status ≠ 200 := by omega
  rw [show (AgentCompletion agent status body).2 = doCompletionRequest status body from rfl,
    show (ServiceCompletion service status body).2 = doCompletionRequest status body from rfl,
    show (AgentCompletionStream agent status body fault).2
      = doStreamingRequest status body fault from rfl,
    show (ServiceCompletionStream service status body fault).2
      = doStreamingRequest status body fault from rfl,
    doCompletionRequest_non200 _ _ h200, doStreamingRequest_non200 _ _ _ h200]
  rcases he : unmarshalErrorResponse body with _ | msg <;> rcases fault with _ | f <;> simp [he]

/-- C5 witness: a 403 with a parseable error body is rejected with the
server-supplied message on the sync path and rejected without a stream
handle on the streaming path. -/
theorem c5_witness :
    (AgentCompletion ("bot") 403 (("\x7b\"error\":\"forbidden\"\x7d").toList)).2
      = Except.error ("request failed with status " ++ toString 403 ++ ": " ++ ("forbidden"))
    ∧ (∃ e, (AgentCompletionStream ("bot") 403
        (("\x7b\"error\":\"forbidden\"\x7d").toList) none).2 = Except.error e) := by
  have h := c5_non2xx_rejected ("bot") ("svc") 403
    (("\x7b\"error\":\"forbidden\"\x7d").toList) none (Or.inr (by omega))
  exact ⟨h.2.2.2.2.1 ("forbidden") (by decide), h.2.2.1⟩

/-- C6: every 200 response whose body decodes as a CompletionResponse
carrying the string s makes both sync completion calls return s with no
error. -/
theorem c6_completion_success (agent service : String) (body : List Char) (s : String)
    (h : unmarshalCompletionResponse body = some s) :
    (AgentCompletion agent 200 body).2 = Except.ok s
    ∧ (ServiceCompletion service 200 body).2 = Except.ok s := by
  have hd : doCompletionRequest 200 body = Except.ok s := by
    unfold doCompletionRequest
    rw [if_neg (fun hh => hh rfl), h]
  exact ⟨hd, hd⟩

/-- C6 witness: status 200 with a completion body carrying hi returns hi. -/
theorem c6_witness :
    (AgentCompletion ("bot") 200 (("\x7b\"completion\":\"hi\"\x7d").toList)).2
      = Except.ok ("hi")
    ∧ (ServiceCompletion ("openai") 200 (("\x7b\"completion\":\"hi\"\x7d").toList)).2
      = Except.ok ("hi") :=
  c6_completion_success ("bot") ("openai") (("\x7b\"completion\":\"hi\"\x7d").toList)
    ("hi") (by decide)

/-- A slash-free list has no slash index. -/
theorem goIndexOfSlash_of_not_mem (seg : List Char) (h : ∀ c ∈ seg, c ≠ '/') :
    goIndexOfSlash seg = none := by
  induction seg with
  | nil => rfl
  | cons c cs ih =>
    have hc : c ≠ '/' := h c (by simp)
    simp [goIndexOfSlash, hc, ih (fun x hx => h x (by simp [hx]))]

/-- The first slash after a slash-free block sits at the block's length. -/
theorem goIndexOfSlash_append (seg rest : List Char) (h : ∀ c ∈ seg, c ≠ '/') :
    goIndexOfSlash (seg ++ '/' :: rest) = some seg.length := by
  induction seg with
  | nil => simp [goIndexOfSlash]
  | cons c cs ih =>
    have hc : c ≠ '/' := h c (by simp)
    simp [goIndexOfSlash, hc, ih (fun x hx => h x (by simp [hx]))]

/-- C7: the direct dispatch transport hands the router the original path
with its first segment removed — a leading slash, a slash-free first
segment and a second slash collapse to that second slash onward — a path
with no second slash becomes the bare root path, and the identity captured
at construction is passed unchanged on every call. -/
theorem c7_direct_dispatch (u : String) (seg rest other : List Char)
    (hseg : ∀ c ∈ seg, c ≠ '/') :
    (appAPIRoundTripper.RoundTrip ⟨u⟩ ('/' :: (seg ++ '/' :: rest))).2 = '/' :: rest
    ∧ (appAPIRoundTripper.RoundTrip ⟨u⟩ ('/' :: seg)).2 = ['/']
    ∧ (appAPIRoundTripper.RoundTrip ⟨u⟩ other).1 = u := by
  refine ⟨?_, ?_, rfl⟩
  · show removeFirstPath ('/' :: (seg ++ '/' :: rest)) = '/' :: rest
    unfold removeFirstPath
    rw [show List.drop 1 ('/' :: (seg ++ '/' :: rest)) = seg ++ '/' :: rest from rfl,
      goIndexOfSlash_append seg rest hseg]
    show List.drop (1 + seg.length) ('/' :: (seg ++ '/' :: rest)) = '/' :: rest
    rw [Nat.add_comm, List.drop_succ_cons, List.drop_left]
  · show removeFirstPath ('/' :: seg) = ['/']
    unfold removeFirstPath
    rw [show List.drop 1 ('/' :: seg) = seg from rfl, goIndexOfSlash_of_not_mem seg hseg]

/-- C7 witness: the documented example path loses its first segment, a
single-segment path becomes the root, and the identity is forwarded. -/
theorem c7_witness :
    (appAPIRoundTripper.RoundTrip ⟨("admin")⟩
        (("/mattermost-ai/bridge/v1/completion").toList)).2
      = ("/bridge/v1/completion").toList
    ∧ (appAPIRoundTripper.RoundTrip ⟨("admin")⟩ (("/mattermost-ai").toList)).2 = ['/']
    ∧ (appAPIRoundTripper.RoundTrip ⟨("admin")⟩ (("/mattermost-ai").toList)).1 = "admin" := by
  have h := c7_direct_dispatch ("admin") (("mattermost-ai").toList)
    (("bridge/v1/completion").toList) (("/mattermost-ai").toList) (by decide)
  exact ⟨h.1, h.2.1, h.2.2⟩

/-- C8: the sandboxed relay transport turns an absent response from the
host's forwarding primitive into a transport error, and propagates any
present response unchanged with no error. -/
theorem c8_relay_response_handling (o : Option HTTPResponse) :
    (o = none → pluginRoundTrip o = Except.error ("failed to make interplugin request"))
    ∧ (∀ r, o = some r → pluginRoundTrip o = Except.ok r) := by
  constructor
  · intro h; subst h; rfl
  · intro r h; subst h; rfl

/-- C8 witness: the nil case fails and a concrete response is propagated. -/
theorem c8_witness :
    pluginRoundTrip none = Except.error ("failed to make interplugin request")
    ∧ pluginRoundTrip (some ⟨200, ("ok").toList⟩) = Except.ok ⟨200, ("ok").toList⟩ :=
  ⟨(c8_relay_response_handling none).1 rfl,
   (c8_relay_response_handling (some ⟨200, ("ok").toList⟩)).2 _ rfl⟩

/-- C9: the discovery calls put the user_id query parameter on the GET URL
exactly when the user identifier is non-empty and leave the URL bare when
it is empty, and a 200 response carrying an empty list is returned as an
empty list with no error, for agents and for services alike. -/
theorem c9_discovery (u : String) :
    (u ≠ "" →
      (GetAgents u 200 (("\x7b\"agents\":[]\x7d").toList)).1
        = "/mattermost-ai/bridge/v1/agents?user_id=" ++ u
      ∧ (GetServices u 200 (("\x7b\"services\":[]\x7d").toList)).1
        = "/mattermost-ai/bridge/v1/services?user_id=" ++ u)
    ∧ (u = "" →
      (GetAgents u 200 (("\x7b\"agents\":[]\x7d").toList)).1
        = "/mattermost-ai/bridge/v1/agents"
      ∧ (GetServices u 200 (("\x7b\"services\":[]\x7d").toList)).1
        = "/mattermost-ai/bridge/v1/services")
    ∧ (GetAgents u 200 (("\x7b\"agents\":[]\x7d").toList)).2 = Except.ok []
    ∧ (GetServices u 200 (("\x7b\"services\":[]\x7d").toList)).2 = Except.ok [] := by
  refine ⟨fun hu => ⟨?_, ?_⟩, fun hu => by subst hu; exact ⟨rfl, rfl⟩, rfl, rfl⟩
  · show getAgentsURL u = _
    unfold getAgentsURL
    rw [if_pos hu]
    exact congrArg (fun s => s ++ u) (by decide)
  · show getServicesURL u = _
    unfold getServicesURL
    rw [if_pos hu]
    exact congrArg (fun s => s ++ u) (by decide)

/-- C9 witness: concrete discovery calls with and without a user identifier
issue the two different URLs, and empty lists come back without error. -/
theorem c9_witness :
    (GetAgents ("alice") 200 (("\x7b\"agents\":[]\x7d").toList)).1
      = "/mattermost-ai/bridge/v1/agents?user_id=alice"
    ∧ (GetAgents ("") 200 (("\x7b\"agents\":[]\x7d").toList)).1
      = "/mattermost-ai/bridge/v1/agents"
    ∧ (GetServices ("alice") 200 (("\x7b\"services\":[]\x7d").toList)).1
      = "/mattermost-ai/bridge/v1/services?user_id=alice"
    ∧ (GetAgents ("alice") 200 (("\x7b\"agents\":[]\x7d").toList)).2 = Except.ok []
    ∧ (GetServices ("alice") 200 (("\x7b\"services\":[]\x7d").toList)).2 = Except.ok [] := by
  have h1 := (c9_discovery ("alice")).1 (by decide)
  have h2 := (c9_discovery ("")).2.1 rfl
  have h3 := (c9_discovery ("alice")).2.2
  exact ⟨h1.1.trans (by decide), h2.1, h1.2.trans (by decide), h3.1, h3.2⟩

end Bridgeclient
